import Mathlib

/-!
Shallow embedding of the `SearchablePickList` widget from
`src/native/src/widget/searchable_pick_list.rs`.

Pixel coordinates and measured text widths (`f32` in the source) are embedded
as rationals (`ℚ`).  The renderer's text-measurement capability is passed as a
function `measureStr : String → ℚ` (the collaborator contract of spec §6); the
`.round()` applied by the hit-tester's internal closure is modelled by
`measureRounded`.

The text buffer (`Value`), cursor (`Cursor`) and `Editor` live in the
`text_input_shared` module of the repository, whose source is not available
here; they are modelled from the spec (§3, §4.1, §4.2) and marked as such in
their doc comments.  Everything else is translated from the source file.
-/

namespace Iced

/-- Modelled from the spec: the editable text content, an ordered sequence of
Unicode scalar values, indexed by scalar position (spec §3 "Value").
The `text_input_shared::value::Value` source is not part of this repository
snapshot. -/
structure Value where
  chars : List Char
  deriving DecidableEq, Repr

/-- Modelled from the spec: construct a `Value` from a string. -/
def Value.new (s : String) : Value := ⟨s.toList⟩

/-- Modelled from the spec: `len()` is the total count of scalar values. -/
def Value.len (v : Value) : Nat := v.chars.length

/-- Modelled from the spec: `until(i)` returns the prefix of length `i`. -/
def Value.until (v : Value) (i : Nat) : Value := ⟨v.chars.take i⟩

/-- Modelled from the spec: `select(start, end)` returns the sub-sequence
between the two indices (used for clipboard copy). -/
def Value.select (v : Value) (s e : Nat) : Value := ⟨(v.chars.take e).drop s⟩

/-- Modelled from the spec: render the value back to an owned string. -/
def Value.toString (v : Value) : String := String.mk v.chars

/-- Modelled from the spec: remove the scalars in `[s, e)`. -/
def Value.removeRange (v : Value) (s e : Nat) : Value :=
  ⟨v.chars.take s ++ v.chars.drop e⟩

/-- Modelled from the spec: insert one scalar at index `i`. -/
def Value.insertChar (v : Value) (i : Nat) (c : Char) : Value :=
  ⟨v.chars.take i ++ c :: v.chars.drop i⟩

/-- Modelled from the spec: insert a whole value at index `i` (paste). -/
def Value.insertMany (v : Value) (i : Nat) (w : Value) : Value :=
  ⟨v.chars.take i ++ w.chars ++ v.chars.drop i⟩

/-- Modelled from the spec: word characters are alphanumeric-or-underscore
scalars (spec §4.1 word boundary). -/
def isWordChar (c : Char) : Bool := c.isAlphanum || c = '_'

/-- Length of the longest prefix of the list all of whose elements satisfy
`p` (helper for the word-boundary scans). -/
def countWhile (p : Char → Bool) : List Char → Nat
  | [] => 0
  | c :: rest => if p c then countWhile p rest + 1 else 0

/-- Modelled from the spec: the previous start-of-word strictly left of `i` —
skip any non-word scalars leftwards, then skip the word run (spec §4.1). -/
def Value.previous_start_of_word (v : Value) (i : Nat) : Nat :=
  let i := min i v.len
  let pre := (v.chars.take i).reverse
  let k1 := countWhile (fun c => !(isWordChar c)) pre
  let k2 := countWhile isWordChar (pre.drop k1)
  i - k1 - k2

/-- Modelled from the spec: the next end-of-word at or right of `i` (spec
§4.1). -/
def Value.next_end_of_word (v : Value) (i : Nat) : Nat :=
  let i := min i v.len
  let post := v.chars.drop i
  let k1 := countWhile (fun c => !(isWordChar c)) post
  let k2 := countWhile isWordChar (post.drop k1)
  i + k1 + k2

/-- Modelled from the spec: the two shapes of a cursor — a caret
(`Index`) or a selection with anchor `s` and moving end `e`, possibly in
either order (spec §3 "Cursor"). -/
inductive CursorState where
  | Index (i : Nat)
  | Selection (s : Nat) (e : Nat)
  deriving DecidableEq, Repr

/-- Modelled from the spec: a cursor over a `Value`; the stored fields are
clamped against the value's length whenever they are read (spec §3: indices
beyond the length clamp, `usize::MAX` is the canonical end sentinel). -/
structure Cursor where
  raw : CursorState
  deriving DecidableEq, Repr

/-- Caret at index `i`. -/
def Cursor.index (i : Nat) : Cursor := ⟨.Index i⟩

/-- Selection with anchor `s` and moving end `e`. -/
def Cursor.mkSelection (s e : Nat) : Cursor := ⟨.Selection s e⟩

instance : Inhabited Cursor := ⟨Cursor.index 0⟩

/-- The default cursor: caret at the start. -/
def Cursor.default : Cursor := Cursor.index 0

/-- Modelled from the spec: the observable cursor state relative to a value —
fields are clamped to the length, and a selection whose clamped endpoints
coincide collapses to a caret (spec §4.1 `selection` is `None` when the
endpoints are equal). -/
def Cursor.state (c : Cursor) (v : Value) : CursorState :=
  match c.raw with
  | .Index i => .Index (min i v.len)
  | .Selection s e =>
      let s := min s v.len
      let e := min e v.len
      if s = e then .Index s else .Selection s e

/-- Modelled from the spec: the normalized selection, `none` for a caret or an
empty selection, otherwise the `(min, max)` pair (spec §4.1). -/
def Cursor.selection (c : Cursor) (v : Value) : Option (Nat × Nat) :=
  match c.state v with
  | .Index _ => none
  | .Selection s e => some (min s e, max s e)

/-- Modelled from the spec: the drag anchor — the caret index, or the `start`
(anchor) field of a selection (spec §4.5 "the drag's original anchor"). -/
def Cursor.start (c : Cursor) (v : Value) : Nat :=
  match c.state v with
  | .Index i => i
  | .Selection s _ => s

/-- Modelled from the spec: place the caret at `i`, clamped (spec §4.1). -/
def Cursor.move_to (v : Value) (i : Nat) : Cursor := .index (min i v.len)

/-- Modelled from the spec: `select_range(anchor, moving_end)`; collapses to a
caret when the clamped endpoints coincide (spec §4.1). -/
def Cursor.select_range (v : Value) (s e : Nat) : Cursor :=
  let s := min s v.len
  let e := min e v.len
  if s = e then .index s else .mkSelection s e

/-- Modelled from the spec: `select_all = select_range(0, len)` (spec §4.1). -/
def Cursor.select_all (v : Value) : Cursor := Cursor.select_range v 0 v.len

/-- Modelled from the spec: move one scalar left; a selection collapses to its
left boundary (spec §4.1). -/
def Cursor.move_left (c : Cursor) (v : Value) : Cursor :=
  match c.state v with
  | .Index i => .index (i - 1)
  | .Selection s e => .index (min s e)

/-- Modelled from the spec: move one scalar right; a selection collapses to
its right boundary (spec §4.1). -/
def Cursor.move_right (c : Cursor) (v : Value) : Cursor :=
  match c.state v with
  | .Index i => Cursor.move_to v (i + 1)
  | .Selection s e => .index (max s e)

/-- Modelled from the spec: extend the selection one scalar left, keeping the
anchor (spec §4.1: navigation operates on `end`, preserving `start`). -/
def Cursor.select_left (c : Cursor) (v : Value) : Cursor :=
  match c.state v with
  | .Index i => Cursor.select_range v i (i - 1)
  | .Selection s e => Cursor.select_range v s (e - 1)

/-- Modelled from the spec: extend the selection one scalar right, keeping the
anchor (spec §4.1). -/
def Cursor.select_right (c : Cursor) (v : Value) : Cursor :=
  match c.state v with
  | .Index i => Cursor.select_range v i (i + 1)
  | .Selection s e => Cursor.select_range v s (e + 1)

/-- Modelled from the spec: move the caret to the previous start-of-word
(spec §4.1). -/
def Cursor.move_left_by_words (c : Cursor) (v : Value) : Cursor :=
  match c.state v with
  | .Index i => Cursor.move_to v (v.previous_start_of_word i)
  | .Selection s e => Cursor.move_to v (v.previous_start_of_word (min s e))

/-- Modelled from the spec: move the caret to the next end-of-word
(spec §4.1). -/
def Cursor.move_right_by_words (c : Cursor) (v : Value) : Cursor :=
  match c.state v with
  | .Index i => Cursor.move_to v (v.next_end_of_word i)
  | .Selection s e => Cursor.move_to v (v.next_end_of_word (max s e))

/-- Modelled from the spec: extend the selection to the previous start-of-word
relative to the moving end, keeping the anchor (spec §4.1). -/
def Cursor.select_left_by_words (c : Cursor) (v : Value) : Cursor :=
  match c.state v with
  | .Index i => Cursor.select_range v i (v.previous_start_of_word i)
  | .Selection s e => Cursor.select_range v s (v.previous_start_of_word e)

/-- Modelled from the spec: extend the selection to the next end-of-word
relative to the moving end, keeping the anchor (spec §4.1). -/
def Cursor.select_right_by_words (c : Cursor) (v : Value) : Cursor :=
  match c.state v with
  | .Index i => Cursor.select_range v i (v.next_end_of_word i)
  | .Selection s e => Cursor.select_range v s (v.next_end_of_word e)

/-- Modelled from the spec: the caret position used by editing operations when
no selection exists (the clamped index). -/
def caretIndex (c : Cursor) (v : Value) : Nat :=
  match c.state v with
  | .Index i => i
  | .Selection s e => min s e

namespace Editor

/-- Modelled from the spec: `Editor::insert` — delete any selection, insert
the scalar at the caret, advance the caret by one (spec §4.2). -/
def insert (v : Value) (c : Cursor) (ch : Char) : Value × Cursor :=
  match c.selection v with
  | some (s, e) =>
      let v := v.removeRange s e
      (v.insertChar s ch, Cursor.index (s + 1))
  | none =>
      let i := caretIndex c v
      (v.insertChar i ch, Cursor.index (i + 1))

/-- Modelled from the spec: `Editor::backspace` — delete the selection (caret
to its start), else the scalar left of the caret; no-op at index 0
(spec §4.2). -/
def backspace (v : Value) (c : Cursor) : Value × Cursor :=
  match c.selection v with
  | some (s, e) => (v.removeRange s e, Cursor.index s)
  | none =>
      let i := caretIndex c v
      if i = 0 then (v, c)
      else (v.removeRange (i - 1) i, Cursor.index (i - 1))

/-- Modelled from the spec: `Editor::delete` — delete the selection (caret to
its start), else the scalar right of the caret; no-op at the end
(spec §4.2). -/
def delete (v : Value) (c : Cursor) : Value × Cursor :=
  match c.selection v with
  | some (s, e) => (v.removeRange s e, Cursor.index s)
  | none =>
      let i := caretIndex c v
      if i < v.len then (v.removeRange i (i + 1), Cursor.index i)
      else (v, c)

/-- Modelled from the spec: `Editor::paste` — delete any selection, insert the
content at the caret, caret moves to the end of the inserted content
(spec §4.2). -/
def paste (v : Value) (c : Cursor) (content : Value) : Value × Cursor :=
  match c.selection v with
  | some (s, e) =>
      let v := v.removeRange s e
      (v.insertMany s content, Cursor.index (s + content.len))
  | none =>
      let i := caretIndex c v
      (v.insertMany i content, Cursor.index (i + content.len))

end Editor

/-- A point in the pixel plane (`iced` `Point`, `f32` fields as `ℚ`). -/
structure Point where
  x : ℚ
  y : ℚ
  deriving DecidableEq, Repr

/-- An axis-aligned rectangle (`iced` `Rectangle`, `f32` fields as `ℚ`). -/
structure Rectangle where
  x : ℚ
  y : ℚ
  width : ℚ
  height : ℚ
  deriving DecidableEq, Repr

/-- Membership of a point in a rectangle (the `Rectangle::contains`
collaborator of the host framework). -/
def Rectangle.contains (r : Rectangle) (p : Point) : Bool :=
  decide (r.x ≤ p.x) && decide (p.x < r.x + r.width) &&
    decide (r.y ≤ p.y) && decide (p.y < r.y + r.height)

/-- The `.round()` applied to the renderer's measured width inside the
hit-tester's `measure` closure (`width.round()` in
`find_cursor_position2`). -/
def measureRounded (measureStr : String → ℚ) (label : String) : ℚ :=
  ((round (measureStr label) : ℤ) : ℚ)

/-- Translation of `find_cursor_position2` (searchable_pick_list.rs, lines
855-919): recursive binary search over `[start, stop)` prefix widths; at the
base case the nearer of the two surrounding endpoints is returned, ties going
to the larger index. -/
def find_cursor_position2 (measureStr : String → ℚ) (value : Value) (target : ℚ)
    (start stop : Nat) : Nat :=
  if _h : start ≥ stop then
    if start = 0 then 0
    else
      let prev := value.until (start - 1)
      let next := value.until start
      let prev_width := measureRounded measureStr prev.toString
      let next_width := measureRounded measureStr next.toString
      if next_width - target > target - prev_width then start - 1 else start
  else
    let index := (stop - start) / 2
    let subvalue := value.until (start + index)
    let width := measureRounded measureStr subvalue.toString
    if width > target then
      find_cursor_position2 measureStr value target start (start + index)
    else
      find_cursor_position2 measureStr value target (start + index + 1) stop
termination_by stop - start
decreasing_by
  all_goals omega

/-- Translation of `measure_value` (lines 934-951): the raw, un-rounded
measured width of a string. -/
def measure_value (measureStr : String → ℚ) (value : String) : ℚ :=
  measureStr value

/-- Translation of `measure_cursor_and_scroll_offset` (lines 1126-1143):
width of the prefix before the cursor, and the scroll offset
`max((width + 5.0) - text_bounds.width, 0.0)`. -/
def measure_cursor_and_scroll_offset (measureStr : String → ℚ)
    (text_bounds : Rectangle) (value : Value) (cursor_index : Nat) : ℚ × ℚ :=
  let text_before_cursor := (value.until cursor_index).toString
  let text_value_width := measure_value measureStr text_before_cursor
  let off := max ((text_value_width + 5) - text_bounds.width) 0
  (text_value_width, off)

/-- Translation of `offset` (lines 953-984): zero when unfocused; otherwise
the scroll offset at the cursor's focus position (the caret index, or the
moving `end` of a selection). -/
def offset (measureStr : String → ℚ) (text_bounds : Rectangle) (value : Value)
    (is_focused : Bool) (cursor : Cursor) : ℚ :=
  if is_focused then
    let focus_position :=
      match cursor.state value with
      | .Index i => i
      | .Selection _ e => e
    (measure_cursor_and_scroll_offset measureStr text_bounds value
      focus_position).2
  else 0

/-- Translation of `find_cursor_position` (lines 821-852): adjust the click's
x-coordinate by the current scroll offset, then binary-search the whole
value. -/
def find_cursor_position (measureStr : String → ℚ) (text_bounds : Rectangle)
    (value : Value) (is_focused : Bool) (cursor : Cursor) (x : ℚ) : Nat :=
  let off := offset measureStr text_bounds value is_focused cursor
  find_cursor_position2 measureStr value (x + off) 0 value.len

/-- The click kinds delivered by the `mouse::Click` collaborator (spec §3
"Click record": the classification rule itself is external). -/
inductive ClickKind where
  | Single
  | Double
  | Triple
  deriving DecidableEq, Repr

/-- A classified click record (`mouse::Click`): its kind and position. -/
structure Click where
  kind : ClickKind
  position : Point
  deriving DecidableEq, Repr

/-- The tracked keyboard modifiers (`keyboard::Modifiers`); `command` is the
platform command modifier as abstracted by the spec. -/
structure Modifiers where
  shift : Bool
  control : Bool
  alt : Bool
  command : Bool
  deriving DecidableEq, Repr

/-- `keyboard::Modifiers::default()`: no modifier held. -/
def Modifiers.default : Modifiers := ⟨false, false, false, false⟩

/-- Translation of `platform::is_jump_modifier_pressed` (lines 921-931): Alt
on macOS, Control elsewhere; the `cfg!(target_os = "macos")` compile-time
branch becomes the `macos` flag. -/
def is_jump_modifier_pressed (macos : Bool) (modifiers : Modifiers) : Bool :=
  if macos then modifiers.alt else modifiers.control

/-- The key codes the widget reacts to (`keyboard::KeyCode`, restricted to
the codes matched by `on_event`; `Other` stands for every other code). -/
inductive KeyCode where
  | Enter
  | Backspace
  | Delete
  | Left
  | Right
  | Home
  | End
  | C
  | X
  | V
  | A
  | Escape
  | Other
  deriving DecidableEq, Repr

/-- The input events consumed by `on_event` (mouse, touch and keyboard). -/
inductive Event where
  | mouseLeftPressed
  | touchFingerPressed
  | mouseLeftReleased
  | touchFingerLifted
  | touchFingerLost
  | mouseCursorMoved (position : Point)
  | touchFingerMoved (position : Point)
  | charReceived (c : Char)
  | keyPressed (key : KeyCode)
  | keyReleased (key : KeyCode)
  | modifiersChanged (m : Modifiers)
  deriving DecidableEq, Repr

/-- The messages the widget can publish to the shell (spec §6 output
messages). -/
inductive Message (α : Type) where
  | onChange (s : String)
  | onSelected (x : α)
  | onSubmit
  deriving DecidableEq, Repr

/-- The event status returned to the host (`event::Status`). -/
inductive Status where
  | Captured
  | Ignored
  deriving DecidableEq, Repr

/-- The host clipboard, holding at most one string (spec §6 clipboard
contract). -/
structure Clipboard where
  content : Option String
  deriving DecidableEq, Repr

/-- `Clipboard::read`. -/
def Clipboard.read (c : Clipboard) : Option String := c.content

/-- `Clipboard::write`. -/
def Clipboard.write (_c : Clipboard) (s : String) : Clipboard := ⟨some s⟩

/-- Rust's `char::is_control` (the Unicode `Cc` category), used by the
character-received guard and the paste filter. -/
def isControlChar (c : Char) : Bool :=
  c.val ≤ 0x1f || (0x7f ≤ c.val && c.val ≤ 0x9f)

/-- The menu/dropdown shared state (`pick_list::State`, spec §3
"Dropdown/Menu state"): open flag, hovered option, and the one-shot
`last_selection` out-slot filled by the Menu collaborator. -/
structure PickListState (α : Type) where
  is_open : Bool
  hovered_option : Option Nat
  last_selection : Option α
  deriving DecidableEq, Repr

/-- `pick_list::State::default()`. -/
def PickListState.default {α : Type} : PickListState α := ⟨false, none, none⟩

/-- Translation of the widget `State` struct (lines 735-747). -/
structure State (α : Type) where
  pick_list : PickListState α
  is_focused : Bool
  is_dragging : Bool
  is_pasting : Option Value
  last_click : Option Click
  cursor : Cursor
  keyboard_modifiers : Modifiers
  first_click : Bool
  deriving DecidableEq, Repr

/-- Translation of `State::new` (lines 749-762): the unfocused initial
state. -/
def State.new {α : Type} : State α :=
  { pick_list := PickListState.default
    is_focused := false
    is_dragging := false
    is_pasting := none
    last_click := none
    cursor := Cursor.default
    keyboard_modifiers := Modifiers.default
    first_click := false }

/-- Translation of `State::focused` (lines 764-776). -/
def State.focused {α : Type} : State α :=
  { State.new with is_focused := true }

/-- The widget's per-frame construction parameters that `on_event` reads
(the `SearchablePickList` struct fields other than the value and the
state). -/
structure Props (α : Type) where
  selected : Option α
  options : List α
  select_all_first_click : Bool
  on_submit : Bool
  padding_horizontal : ℚ
  deriving DecidableEq, Repr

/-- The outcome of one `on_event` dispatch: the mutated state, value and
clipboard, the messages published to the shell in order, and the returned
status. -/
structure EventResult (α : Type) where
  state : State α
  value : Value
  clipboard : Clipboard
  messages : List (Message α)
  status : Status
  deriving DecidableEq, Repr

/-- The disclosure ("arrow down") hit zone computed in the press handler
(lines 300-306): the 30-pixel-wide region at the control's right edge, less
the horizontal padding. -/
def arrow_down_bounds (layoutBounds : Rectangle) (p : Props α) : Rectangle :=
  { layoutBounds with
      x := layoutBounds.x + layoutBounds.width - p.padding_horizontal - 30 }

/-- Translation of the primary press arm of `on_event` (lines 282-400),
before the `last_selection` drain: returns the updated state and the status
the press handling computed. -/
def on_press [DecidableEq α] (p : Props α)
    (classify : Point → Option Click → Click) (measureStr : String → ℚ)
    (layoutBounds textBounds : Rectangle) (cursor_position : Point)
    (v : Value) (st : State α) : State α × Status :=
  let is_clicked := layoutBounds.contains cursor_position
  if is_clicked then
    if !st.pick_list.is_open then
      ({ st with
          pick_list := { st.pick_list with
            is_open := true
            hovered_option :=
              List.findIdx? (fun o => decide (some o = p.selected)) p.options }
          is_focused := true },
        Status.Captured)
    else
      if (arrow_down_bounds layoutBounds p).contains cursor_position then
        ({ st with
            pick_list := { st.pick_list with is_open := false }
            is_focused := false },
          Status.Captured)
      else
        -- Otherwise the user must have clicked inside the text field
        let st := { st with is_focused := true }
        let st :=
          if p.select_all_first_click && !is_clicked then
            { st with first_click := true }
          else st
        let target := cursor_position.x - textBounds.x
        let click := classify cursor_position st.last_click
        let st :=
          match click.kind with
          | .Single =>
              if target > 0 then
                if p.select_all_first_click && st.first_click then
                  { st with cursor := Cursor.select_all v, first_click := false }
                else
                  let position := find_cursor_position measureStr textBounds v
                    st.is_focused st.cursor target
                  { st with cursor := Cursor.move_to v position
                            is_dragging := true }
              else
                { st with cursor := Cursor.move_to v 0, is_dragging := true }
          | .Double =>
              let position := find_cursor_position measureStr textBounds v
                st.is_focused st.cursor target
              { st with
                  cursor := Cursor.select_range v
                    (v.previous_start_of_word position)
                    (v.next_end_of_word position)
                  is_dragging := false }
          | .Triple =>
              { st with cursor := Cursor.select_all v, is_dragging := false }
        ({ st with last_click := some click }, Status.Captured)
  else
    ({ st with
        pick_list := { st.pick_list with is_open := false }
        is_focused := false },
      Status.Ignored)

/-- Translation of the key-pressed arm of `on_event` (lines 465-656); only
reached while focused, and always returns `Captured`. -/
def on_key_pressed [DecidableEq α] (macos : Bool) (p : Props α)
    (v : Value) (st : State α) (clipboard : Clipboard)
    (key : KeyCode) : EventResult α :=
  let modifiers := st.keyboard_modifiers
  match key with
  | .Enter =>
      { state := st, value := v, clipboard := clipboard
        messages := if p.on_submit then [Message.onSubmit] else []
        status := Status.Captured }
  | .Backspace =>
      let cur0 :=
        if is_jump_modifier_pressed macos modifiers
            && (st.cursor.selection v).isNone then
          st.cursor.select_left_by_words v
        else st.cursor
      let r := Editor.backspace v cur0
      { state := { st with cursor := r.2 }, value := r.1, clipboard := clipboard
        messages := [Message.onChange r.1.toString]
        status := Status.Captured }
  | .Delete =>
      let cur0 :=
        if is_jump_modifier_pressed macos modifiers
            && (st.cursor.selection v).isNone then
          st.cursor.select_right_by_words v
        else st.cursor
      let r := Editor.delete v cur0
      { state := { st with cursor := r.2 }, value := r.1, clipboard := clipboard
        messages := [Message.onChange r.1.toString]
        status := Status.Captured }
  | .Left =>
      let cur' :=
        if is_jump_modifier_pressed macos modifiers then
          if modifiers.shift then st.cursor.select_left_by_words v
          else st.cursor.move_left_by_words v
        else if modifiers.shift then st.cursor.select_left v
        else st.cursor.move_left v
      { state := { st with cursor := cur' }, value := v, clipboard := clipboard
        messages := [], status := Status.Captured }
  | .Right =>
      let cur' :=
        if is_jump_modifier_pressed macos modifiers then
          if modifiers.shift then st.cursor.select_right_by_words v
          else st.cursor.move_right_by_words v
        else if modifiers.shift then st.cursor.select_right v
        else st.cursor.move_right v
      { state := { st with cursor := cur' }, value := v, clipboard := clipboard
        messages := [], status := Status.Captured }
  | .Home =>
      let cur' :=
        if modifiers.shift then Cursor.select_range v (st.cursor.start v) 0
        else Cursor.move_to v 0
      { state := { st with cursor := cur' }, value := v, clipboard := clipboard
        messages := [], status := Status.Captured }
  | .End =>
      let cur' :=
        if modifiers.shift then
          Cursor.select_range v (st.cursor.start v) v.len
        else Cursor.move_to v v.len
      { state := { st with cursor := cur' }, value := v, clipboard := clipboard
        messages := [], status := Status.Captured }
  | .C =>
      if st.keyboard_modifiers.command then
        let clipboard' :=
          match st.cursor.selection v with
          | some (s, e) => clipboard.write (v.select s e).toString
          | none => clipboard
        { state := st, value := v, clipboard := clipboard'
          messages := [], status := Status.Captured }
      else
        { state := st, value := v, clipboard := clipboard
          messages := [], status := Status.Captured }
  | .X =>
      if st.keyboard_modifiers.command then
        let clipboard' :=
          match st.cursor.selection v with
          | some (s, e) => clipboard.write (v.select s e).toString
          | none => clipboard
        let r := Editor.delete v st.cursor
        { state := { st with cursor := r.2 }, value := r.1
          clipboard := clipboard'
          messages := [Message.onChange r.1.toString]
          status := Status.Captured }
      else
        { state := st, value := v, clipboard := clipboard
          messages := [], status := Status.Captured }
  | .V =>
      if st.keyboard_modifiers.command then
        let content :=
          match st.is_pasting with
          | some content => content
          | none =>
              Value.mk
                (((clipboard.read).getD "").toList.filter
                  (fun c => !(isControlChar c)))
        let r := Editor.paste v st.cursor content
        { state := { st with cursor := r.2, is_pasting := some content }
          value := r.1, clipboard := clipboard
          messages := [Message.onChange r.1.toString]
          status := Status.Captured }
      else
        { state := { st with is_pasting := none }, value := v
          clipboard := clipboard, messages := [], status := Status.Captured }
  | .A =>
      if st.keyboard_modifiers.command then
        { state := { st with cursor := Cursor.select_all v }, value := v
          clipboard := clipboard, messages := [], status := Status.Captured }
      else
        { state := st, value := v, clipboard := clipboard
          messages := [], status := Status.Captured }
  | .Escape =>
      { state := { st with
          is_focused := false
          is_dragging := false
          is_pasting := none
          keyboard_modifiers := Modifiers.default }
        value := v, clipboard := clipboard
        messages := [], status := Status.Captured }
  | .Other =>
      { state := st, value := v, clipboard := clipboard
        messages := [], status := Status.Captured }

/-- Translation of `Widget::on_event` (lines 272-678). -/
def on_event [DecidableEq α] (macos : Bool) (p : Props α)
    (classify : Point → Option Click → Click) (measureStr : String → ℚ)
    (layoutBounds textBounds : Rectangle) (cursor_position : Point)
    (v : Value) (st : State α) (clipboard : Clipboard)
    (event : Event) : EventResult α :=
  match event with
  | .mouseLeftPressed | .touchFingerPressed =>
      let pr := on_press p classify measureStr layoutBounds textBounds
        cursor_position v st
      let st1 := pr.1
      let event_status := pr.2
      -- drain of `last_selection` (lines 402-413)
      match st1.pick_list.last_selection with
      | some last_selection =>
          { state := { st1 with
              pick_list := { st1.pick_list with
                last_selection := none
                is_open := false }
              is_focused := false }
            value := v, clipboard := clipboard
            messages := [Message.onSelected last_selection]
            status := Status.Captured }
      | none =>
          { state := st1, value := v, clipboard := clipboard
            messages := [], status := event_status }
  | .mouseLeftReleased | .touchFingerLifted | .touchFingerLost =>
      { state := { st with is_dragging := false }, value := v
        clipboard := clipboard, messages := [], status := Status.Ignored }
  | .mouseCursorMoved position | .touchFingerMoved position =>
      if st.is_dragging then
        let target := position.x - textBounds.x
        let st' :=
          if target > 0 then
            let pos := find_cursor_position measureStr textBounds v
              st.is_focused st.cursor target
            { st with cursor := Cursor.select_range v (st.cursor.start v) pos }
          else st
        { state := st', value := v, clipboard := clipboard
          messages := [], status := Status.Captured }
      else
        { state := st, value := v, clipboard := clipboard
          messages := [], status := Status.Ignored }
  | .charReceived c =>
      if st.is_focused && st.is_pasting.isNone
          && !st.keyboard_modifiers.command && !(isControlChar c) then
        let r := Editor.insert v st.cursor c
        { state := { st with cursor := r.2 }, value := r.1
          clipboard := clipboard
          messages := [Message.onChange r.1.toString]
          status := Status.Captured }
      else
        { state := st, value := v, clipboard := clipboard
          messages := [], status := Status.Ignored }
  | .keyPressed key =>
      if st.is_focused then
        on_key_pressed macos p v st clipboard key
      else
        { state := st, value := v, clipboard := clipboard
          messages := [], status := Status.Ignored }
  | .keyReleased key =>
      if st.is_focused then
        match key with
        | .V =>
            { state := { st with is_pasting := none }, value := v
              clipboard := clipboard, messages := [], status := Status.Captured }
        | _ =>
            { state := st, value := v, clipboard := clipboard
              messages := [], status := Status.Captured }
      else
        { state := st, value := v, clipboard := clipboard
          messages := [], status := Status.Ignored }
  | .modifiersChanged m =>
      if st.is_focused then
        { state := { st with keyboard_modifiers := m }, value := v
          clipboard := clipboard, messages := [], status := Status.Ignored }
      else
        { state := st, value := v, clipboard := clipboard
          messages := [], status := Status.Ignored }

/-- One event dispatch together with its per-dispatch environment (layout,
pointer position, click classifier and measurement collaborator). -/
structure Dispatch where
  event : Event
  layoutBounds : Rectangle
  textBounds : Rectangle
  cursor_position : Point
  classify : Point → Option Click → Click
  measureStr : String → ℚ

/-- The state threaded through successive dispatches: widget state, value
and clipboard. -/
structure RunState (α : Type) where
  state : State α
  value : Value
  clipboard : Clipboard

/-- Dispatch a list of events in order, threading state, value and
clipboard. -/
def runEvents [DecidableEq α] (macos : Bool) (p : Props α) :
    List Dispatch → RunState α → RunState α
  | [], r => r
  | d :: ds, r =>
      let res := on_event macos p d.classify d.measureStr d.layoutBounds
        d.textBounds d.cursor_position r.value r.state r.clipboard d.event
      runEvents macos p ds ⟨res.state, res.value, res.clipboard⟩

/-! ### Concrete fixtures used by witness and counterexample theorems -/

/-- Widget parameters for concrete scenarios: no selection, no options, the
select-all mode off, no submit message, zero padding. -/
def wProps : Props Nat := ⟨none, [], false, false, 0⟩

/-- A click classifier that always reports a single click. -/
def wClassifySingle : Point → Option Click → Click :=
  fun _ _ => ⟨ClickKind.Single, ⟨0, 0⟩⟩

/-- A measurement collaborator that reports width 0 for every string. -/
def wMeasure : String → ℚ := fun _ => 0

/-- Control bounds for concrete scenarios. -/
def wLayout : Rectangle := ⟨0, 0, 100, 100⟩

/-- Text bounds for concrete scenarios (left edge at x = 1). -/
def wText : Rectangle := ⟨1, 0, 50, 10⟩

/-- A press position inside the control, right of the text origin. -/
def wPos : Point := ⟨2, 1⟩

/-- An empty clipboard. -/
def wClip : Clipboard := ⟨none⟩

/-- A state whose dropdown is open, with the menu slots empty. -/
def wStOpen : State Nat :=
  { (State.new : State Nat) with pick_list := ⟨true, none, none⟩ }

/-- A state whose menu out-slot holds the selection 7. -/
def wStPending : State Nat :=
  { (State.new : State Nat) with pick_list := ⟨true, none, some 7⟩ }

/-- A focused state with the caret at index 1 and the command modifier
held. -/
def wStCaret1Cmd : State Nat :=
  { (State.new : State Nat) with
      is_focused := true
      cursor := Cursor.index 1
      keyboard_modifiers := ⟨false, false, false, true⟩ }

/-- A focused state with the caret at index 3 and the command modifier
held. -/
def wStCaret3Cmd : State Nat :=
  { (State.new : State Nat) with
      is_focused := true
      cursor := Cursor.index 3
      keyboard_modifiers := ⟨false, false, false, true⟩ }

/-- A focused state with the selection (1, 3) and the command modifier
held. -/
def wStSel13Cmd : State Nat :=
  { (State.new : State Nat) with
      is_focused := true
      cursor := Cursor.mkSelection 1 3
      keyboard_modifiers := ⟨false, false, false, true⟩ }

/-- A focused state with the caret at index 5 and no modifiers. -/
def wStCaret5 : State Nat :=
  { (State.new : State Nat) with is_focused := true, cursor := Cursor.index 5 }

/-- An unfocused dragging state with the caret at index 2. -/
def wStDrag : State Nat :=
  { (State.new : State Nat) with is_dragging := true, cursor := Cursor.index 2 }

/-! ### Helper lemmas about the hit-tester -/

theorem find_cursor_position2_base (m : String → ℚ) (v : Value) (t : ℚ)
    (s e : Nat) (h : s ≥ e) :
    find_cursor_position2 m v t s e =
      if s = 0 then 0
      else if measureRounded m (v.until s).toString - t >
          t - measureRounded m (v.until (s - 1)).toString then s - 1 else s := by
  rw [find_cursor_position2]
  simp [h]

theorem find_cursor_position2_step (m : String → ℚ) (v : Value) (t : ℚ)
    (s e : Nat) (h : s < e) :
    find_cursor_position2 m v t s e =
      if measureRounded m (v.until (s + (e - s) / 2)).toString > t then
        find_cursor_position2 m v t s (s + (e - s) / 2)
      else
        find_cursor_position2 m v t (s + (e - s) / 2 + 1) e := by
  rw [find_cursor_position2]
  simp [Nat.not_le.mpr h]

theorem find_cursor_position2_le_aux (m : String → ℚ) (v : Value) (t : ℚ) :
    ∀ n s e, e - s ≤ n → find_cursor_position2 m v t s e ≤ max s e := by
  intro n
  induction n with
  | zero =>
      intro s e h
      rw [find_cursor_position2_base _ _ _ _ _ (by omega)]
      split_ifs <;> omega
  | succ n ih =>
      intro s e h
      by_cases hse : e ≤ s
      · rw [find_cursor_position2_base _ _ _ _ _ hse]
        split_ifs <;> omega
      · have hse' : s < e := by omega
        rw [find_cursor_position2_step _ _ _ _ _ hse']
        have hi : (e - s) / 2 < e - s := by omega
        split_ifs with hc
        · have := ih s (s + (e - s) / 2) (by omega)
          omega
        · have := ih (s + (e - s) / 2 + 1) e (by omega)
          omega

theorem find_cursor_position2_le (m : String → ℚ) (v : Value) (t : ℚ)
    (s e : Nat) : find_cursor_position2 m v t s e ≤ max s e :=
  find_cursor_position2_le_aux m v t (e - s) s e le_rfl

theorem find_cursor_position2_ge_aux (m : String → ℚ) (v : Value) (t : ℚ) :
    ∀ n s e, e - s ≤ n → s ≤ find_cursor_position2 m v t s e + 1 := by
  intro n
  induction n with
  | zero =>
      intro s e h
      rw [find_cursor_position2_base _ _ _ _ _ (by omega)]
      split_ifs <;> omega
  | succ n ih =>
      intro s e h
      by_cases hse : e ≤ s
      · rw [find_cursor_position2_base _ _ _ _ _ hse]
        split_ifs <;> omega
      · have hse' : s < e := by omega
        rw [find_cursor_position2_step _ _ _ _ _ hse']
        have hi : (e - s) / 2 < e - s := by omega
        split_ifs with hc
        · exact ih s (s + (e - s) / 2) (by omega)
        · have := ih (s + (e - s) / 2 + 1) e (by omega)
          omega

theorem find_cursor_position2_ge (m : String → ℚ) (v : Value) (t : ℚ)
    (s e : Nat) : s ≤ find_cursor_position2 m v t s e + 1 :=
  find_cursor_position2_ge_aux m v t (e - s) s e le_rfl

theorem find_cursor_position2_mono_aux (m : String → ℚ) (v : Value) :
    ∀ n s e t1 t2, e - s ≤ n → t1 ≤ t2 →
      find_cursor_position2 m v t1 s e ≤ find_cursor_position2 m v t2 s e := by
  intro n
  induction n with
  | zero =>
      intro s e t1 t2 h h12
      rw [find_cursor_position2_base _ _ _ _ _ (by omega),
        find_cursor_position2_base _ _ _ _ _ (by omega)]
      split_ifs with h0 hc2 hc1 hc1 <;> try omega
      · exact absurd (by linarith) (not_lt.mpr (le_of_not_lt hc2))
  | succ n ih =>
      intro s e t1 t2 h h12
      by_cases hse : e ≤ s
      · rw [find_cursor_position2_base _ _ _ _ _ hse,
          find_cursor_position2_base _ _ _ _ _ hse]
        split_ifs with h0 hc2 hc1 hc1 <;> try omega
        · exact absurd (by linarith) (not_lt.mpr (le_of_not_lt hc2))
      · have hse' : s < e := by omega
        rw [find_cursor_position2_step _ _ _ _ _ hse',
          find_cursor_position2_step _ _ _ _ _ hse']
        have hi : (e - s) / 2 < e - s := by omega
        split_ifs with h1 h2 h2
        · exact ih s (s + (e - s) / 2) t1 t2 (by omega) h12
        · have A := find_cursor_position2_le m v t1 s (s + (e - s) / 2)
          have B := find_cursor_position2_ge m v t2 (s + (e - s) / 2 + 1) e
          omega
        · exact absurd (lt_of_le_of_lt (le_trans (le_of_not_lt h1) h12) h2)
            (lt_irrefl _)
        · exact ih (s + (e - s) / 2 + 1) e t1 t2 (by omega) h12

theorem find_cursor_position2_mono (m : String → ℚ) (v : Value) (s e : Nat)
    (t1 t2 : ℚ) (h12 : t1 ≤ t2) :
    find_cursor_position2 m v t1 s e ≤ find_cursor_position2 m v t2 s e :=
  find_cursor_position2_mono_aux m v (e - s) s e t1 t2 le_rfl h12

theorem Value.until_min_len (v : Value) (i : Nat) :
    v.until (min i v.len) = v.until i := by
  unfold Value.until Value.len
  congr 1
  rcases le_or_lt i v.chars.length with h | h
  · rw [min_eq_left h]
  · rw [min_eq_right h.le, List.take_length, List.take_of_length_le h.le]

/-! ### Helper lemmas about the event state machine -/

theorem on_press_last_selection {α : Type} [DecidableEq α] (p : Props α)
    (classify : Point → Option Click → Click) (m : String → ℚ)
    (lb tb : Rectangle) (pos : Point) (v : Value) (st : State α) :
    (on_press p classify m lb tb pos v st).1.pick_list.last_selection =
      st.pick_list.last_selection := by
  by_cases hic : lb.contains pos = true
  · by_cases hop : st.pick_list.is_open = true
    · by_cases har : (arrow_down_bounds lb p).contains pos = true
      · simp [on_press, hic, hop, har]
      · cases hck : (classify pos st.last_click).kind <;>
          simp [on_press, hic, hop, har, hck] <;> split_ifs <;> simp
    · simp [on_press, hic, hop]
  · simp [on_press, hic]

theorem on_press_first_click {α : Type} [DecidableEq α] (p : Props α)
    (classify : Point → Option Click → Click) (m : String → ℚ)
    (lb tb : Rectangle) (pos : Point) (v : Value) (st : State α)
    (h : st.first_click = false) :
    (on_press p classify m lb tb pos v st).1.first_click = false := by
  by_cases hic : lb.contains pos = true
  · by_cases hop : st.pick_list.is_open = true
    · by_cases har : (arrow_down_bounds lb p).contains pos = true
      · simp [on_press, hic, hop, har, h]
      · cases hck : (classify pos st.last_click).kind <;>
          simp [on_press, hic, hop, har, hck, h] <;> split_ifs <;> simp [h]
    · simp [on_press, hic, hop, h]
  · simp [on_press, hic, h]

theorem on_key_pressed_first_click {α : Type} [DecidableEq α] (macos : Bool)
    (p : Props α) (v : Value) (st : State α) (clip : Clipboard)
    (key : KeyCode) :
    (on_key_pressed macos p v st clip key).state.first_click =
      st.first_click := by
  cases key <;> simp [on_key_pressed] <;> split_ifs <;> simp

theorem on_event_first_click {α : Type} [DecidableEq α] (macos : Bool)
    (p : Props α) (classify : Point → Option Click → Click) (m : String → ℚ)
    (lb tb : Rectangle) (pos : Point) (v : Value) (st : State α)
    (clip : Clipboard) (ev : Event) (h : st.first_click = false) :
    (on_event macos p classify m lb tb pos v st clip ev).state.first_click =
      false := by
  cases ev
  case mouseLeftPressed | touchFingerPressed =>
    have h1 := on_press_first_click p classify m lb tb pos v st h
    unfold on_event
    cases hls :
        (on_press p classify m lb tb pos v st).1.pick_list.last_selection <;>
      simp [hls, h1]
  case keyPressed key =>
    unfold on_event
    split_ifs <;> simp [on_key_pressed_first_click, h]
  case keyReleased key =>
    unfold on_event
    split_ifs <;> cases key <;> simp [h]
  all_goals unfold on_event <;> dsimp only <;> (try split_ifs) <;> simp [h]

theorem runEvents_first_click {α : Type} [DecidableEq α] (macos : Bool)
    (p : Props α) :
    ∀ (ds : List Dispatch) (r : RunState α), r.state.first_click = false →
      (runEvents macos p ds r).state.first_click = false := by
  intro ds
  induction ds with
  | nil => intro r h; exact h
  | cons d ds ih =>
      intro r h
      unfold runEvents
      exact ih _ (on_event_first_click macos p d.classify d.measureStr
        d.layoutBounds d.textBounds d.cursor_position r.value r.state
        r.clipboard d.event h)

theorem on_press_single_hit {α : Type} [DecidableEq α] (p : Props α)
    (classify : Point → Option Click → Click) (m : String → ℚ)
    (lb tb : Rectangle) (pos : Point) (v : Value) (st : State α)
    (h1 : st.first_click = false)
    (hic : lb.contains pos = true)
    (hop : st.pick_list.is_open = true)
    (har : (arrow_down_bounds lb p).contains pos = false)
    (hck : (classify pos st.last_click).kind = ClickKind.Single)
    (htg : pos.x - tb.x > 0) :
    on_press p classify m lb tb pos v st =
      ({ st with
          is_focused := true
          cursor := Cursor.move_to v
            (find_cursor_position m tb v true st.cursor (pos.x - tb.x))
          is_dragging := true
          last_click := some (classify pos st.last_click) },
        Status.Captured) := by
  simp [on_press, hic, hop, har, hck, htg, h1]

end Iced

open Iced

/-- C9: starting from `State::new`, the `first_click` flag stays `false`
across every event sequence (the only assignment arming it is guarded by
`select_all_first_click && !is_clicked` inside the `is_clicked` branch, an
unsatisfiable conjunction), so the select-all-on-first-click arm is
unreachable and a single click with positive target always hit-tests and
moves the caret, beginning a drag. -/
theorem first_click_stays_false {α : Type} [DecidableEq α] (macos : Bool)
    (p : Props α) :
    (∀ (ds : List Dispatch) (v : Value) (clip : Clipboard),
      (runEvents macos p ds ⟨State.new, v, clip⟩).state.first_click = false) ∧
    (∀ (classify : Point → Option Click → Click) (m : String → ℚ)
        (lb tb : Rectangle) (pos : Point) (v : Value) (st : State α)
        (clip : Clipboard) (ev : Event),
      st.first_click = false →
      (ev = Event.mouseLeftPressed ∨ ev = Event.touchFingerPressed) →
      lb.contains pos = true →
      st.pick_list.is_open = true →
      (arrow_down_bounds lb p).contains pos = false →
      (classify pos st.last_click).kind = ClickKind.Single →
      pos.x - tb.x > 0 →
      (on_event macos p classify m lb tb pos v st clip ev).state.cursor =
        Cursor.move_to v
          (find_cursor_position m tb v true st.cursor (pos.x - tb.x)) ∧
      (on_event macos p classify m lb tb pos v st clip ev).state.is_dragging =
        true) := by
  constructor
  · intro ds v clip
    exact runEvents_first_click macos p ds ⟨State.new, v, clip⟩ rfl
  · intro classify m lb tb pos v st clip ev h1 hev hic hop har hck htg
    have hp := on_press_single_hit p classify m lb tb pos v st h1 hic hop har
      hck htg
    rcases hev with rfl | rfl <;>
    · unfold on_event
      rw [hp]
      cases hls : st.pick_list.last_selection <;> simp [hls]

/-- C9 witness: a single click with positive target on a concrete open state
hit-tests and moves the caret. -/
theorem first_click_stays_false_witness :
    (on_event false wProps wClassifySingle wMeasure wLayout wText wPos
        (Value.new "") wStOpen wClip Event.mouseLeftPressed).state.cursor =
      Cursor.move_to (Value.new "")
        (find_cursor_position wMeasure wText (Value.new "") true wStOpen.cursor
          (wPos.x - wText.x)) ∧
    (on_event false wProps wClassifySingle wMeasure wLayout wText wPos
        (Value.new "") wStOpen wClip
        Event.mouseLeftPressed).state.is_dragging = true :=
  (first_click_stays_false false wProps).2 wClassifySingle wMeasure wLayout
    wText wPos (Value.new "") wStOpen wClip Event.mouseLeftPressed rfl
    (Or.inl rfl) (by norm_num [wLayout, wPos, Rectangle.contains]) rfl
    (by norm_num [arrow_down_bounds, wLayout, wProps, wPos, Rectangle.contains])
    rfl (by norm_num [wPos, wText])

/-- C1: any primary press (mouse or touch) dispatched while the Menu
collaborator's `last_selection` slot holds `x` makes `on_event` publish
`OnSelected(x)`, force-close the dropdown, clear focus and report the event
`Captured`, irrespective of where the press landed. -/
theorem press_drains_menu_selection {α : Type} [DecidableEq α] (macos : Bool)
    (p : Props α) (classify : Point → Option Click → Click) (m : String → ℚ)
    (lb tb : Rectangle) (pos : Point) (v : Value) (st : State α)
    (clip : Clipboard) (ev : Event) (x : α)
    (hsel : st.pick_list.last_selection = some x)
    (hev : ev = Event.mouseLeftPressed ∨ ev = Event.touchFingerPressed) :
    (on_event macos p classify m lb tb pos v st clip ev).messages =
      [Message.onSelected x] ∧
    (on_event macos p classify m lb tb pos v st clip
      ev).state.pick_list.is_open = false ∧
    (on_event macos p classify m lb tb pos v st clip ev).state.is_focused =
      false ∧
    (on_event macos p classify m lb tb pos v st clip ev).status =
      Status.Captured := by
  have hls := (on_press_last_selection p classify m lb tb pos v st).trans hsel
  rcases hev with rfl | rfl <;>
  · unfold on_event
    simp [hls]

/-- C1 witness: the drain theorem applied at a concrete pending selection. -/
theorem press_drains_menu_selection_witness :
    (on_event false wProps wClassifySingle wMeasure wLayout wText wPos
        (Value.new "") wStPending wClip Event.mouseLeftPressed).messages =
      [Message.onSelected 7] ∧
    (on_event false wProps wClassifySingle wMeasure wLayout wText wPos
        (Value.new "") wStPending wClip
        Event.mouseLeftPressed).state.pick_list.is_open = false ∧
    (on_event false wProps wClassifySingle wMeasure wLayout wText wPos
        (Value.new "") wStPending wClip
        Event.mouseLeftPressed).state.is_focused = false ∧
    (on_event false wProps wClassifySingle wMeasure wLayout wText wPos
        (Value.new "") wStPending wClip Event.mouseLeftPressed).status =
      Status.Captured :=
  press_drains_menu_selection false wProps wClassifySingle wMeasure wLayout
    wText wPos (Value.new "") wStPending wClip Event.mouseLeftPressed 7 rfl
    (Or.inl rfl)

open Iced

/-! ### Claim theorems -/

/-- C4: for every value, target and measurement function monotonically
non-decreasing in prefix length, the binary search of
`find_cursor_position2` at its base case `start ≥ end` returns 0 when
`start = 0`; otherwise `start - 1` when the gap
`measure(until(start)) - target` is strictly greater than
`target - measure(until(start - 1))`, and `start` otherwise (ties broken
toward the larger index), i.e. the endpoint whose measured prefix width is
numerically closest to the target. -/
theorem find_cursor_position2_base_returns_nearest (m : String → ℚ)
    (v : Value) (t : ℚ) (s e : Nat)
    (_hmono : ∀ i j, i ≤ j → j ≤ v.len →
      m (v.until i).toString ≤ m (v.until j).toString)
    (h : s ≥ e) :
    find_cursor_position2 m v t s e =
      if s = 0 then 0
      else if measureRounded m (v.until s).toString - t >
          t - measureRounded m (v.until (s - 1)).toString then s - 1 else s :=
  find_cursor_position2_base m v t s e h

/-- C4 witness: the base-case theorem applied at a concrete input. -/
theorem find_cursor_position2_base_returns_nearest_witness :
    find_cursor_position2 (fun _ => 0) (Value.new "a") 0 1 0 =
      if 1 = 0 then 0
      else if measureRounded (fun _ => 0) ((Value.new "a").until 1).toString - 0 >
          0 - measureRounded (fun _ => 0) ((Value.new "a").until 0).toString
        then 1 - 1 else 1 :=
  find_cursor_position2_base_returns_nearest (fun _ => 0) (Value.new "a") 0 1 0
    (fun _ _ _ _ => le_rfl) (by decide)

/-- C5: with a fixed value, focus state and cursor, and a measurement
function monotonically non-decreasing in prefix length,
`find_cursor_position` is monotonic in its target x-coordinate. -/
theorem find_cursor_position_monotone (m : String → ℚ) (tb : Rectangle)
    (v : Value) (foc : Bool) (c : Cursor) (x1 x2 : ℚ)
    (_hmono : ∀ i j, i ≤ j → j ≤ v.len →
      m (v.until i).toString ≤ m (v.until j).toString)
    (h : x1 < x2) :
    find_cursor_position m tb v foc c x1 ≤
      find_cursor_position m tb v foc c x2 := by
  unfold find_cursor_position
  exact find_cursor_position2_mono m v 0 v.len _ _ (by linarith)

/-- C5 witness: monotonicity applied at a concrete input. -/
theorem find_cursor_position_monotone_witness :
    find_cursor_position (fun _ => 0) ⟨0, 0, 10, 10⟩ (Value.new "ab") false
        Cursor.default 0 ≤
      find_cursor_position (fun _ => 0) ⟨0, 0, 10, 10⟩ (Value.new "ab") false
        Cursor.default 1 :=
  find_cursor_position_monotone (fun _ => 0) ⟨0, 0, 10, 10⟩ (Value.new "ab")
    false Cursor.default 0 1 (fun _ _ _ _ => le_rfl) (by norm_num)

/-- C10: for every measurement function, value, target and bounds
`start ≤ end ≤ value.len`, the recursion of `find_cursor_position2`
strictly decreases the interval length `end - start` in both recursive
calls (so the search terminates), and the base-case subtraction `start - 1`
is only taken with `start ≥ 1` (so it cannot underflow). -/
theorem find_cursor_position2_terminates (m : String → ℚ) (v : Value) (t : ℚ)
    (s e : Nat) (_hse : s ≤ e) (_hlen : e ≤ v.len) :
    (s < e →
      ((s + (e - s) / 2) - s < e - s ∧ e - (s + (e - s) / 2 + 1) < e - s) ∧
      find_cursor_position2 m v t s e =
        (if measureRounded m (v.until (s + (e - s) / 2)).toString > t then
          find_cursor_position2 m v t s (s + (e - s) / 2)
        else find_cursor_position2 m v t (s + (e - s) / 2 + 1) e)) ∧
    (e ≤ s → s ≠ 0 →
      1 ≤ s ∧ (find_cursor_position2 m v t s e = s - 1 ∨
        find_cursor_position2 m v t s e = s)) := by
  constructor
  · intro hlt
    exact ⟨⟨by omega, by omega⟩, find_cursor_position2_step m v t s e hlt⟩
  · intro hes hs0
    refine ⟨by omega, ?_⟩
    rw [find_cursor_position2_base m v t s e hes]
    split_ifs with h0 hc
    · exact absurd h0 hs0
    · exact Or.inl rfl
    · exact Or.inr rfl

/-- C10 witness: the termination theorem applied at a concrete input. -/
theorem find_cursor_position2_terminates_witness :
    ((0 + (2 - 0) / 2) - 0 < 2 - 0 ∧ 2 - (0 + (2 - 0) / 2 + 1) < 2 - 0) ∧
    find_cursor_position2 (fun _ => 0) (Value.new "ab") 0 0 2 =
      (if measureRounded (fun _ => 0)
          ((Value.new "ab").until (0 + (2 - 0) / 2)).toString > 0 then
        find_cursor_position2 (fun _ => 0) (Value.new "ab") 0 0 (0 + (2 - 0) / 2)
      else
        find_cursor_position2 (fun _ => 0) (Value.new "ab") 0
          (0 + (2 - 0) / 2 + 1) 2) :=
  (find_cursor_position2_terminates (fun _ => 0) (Value.new "ab") 0 0 2
    (by decide) (by decide)).1 (by decide)

/-- C6: the scroll offset is exactly 0 when unfocused; when focused it is
`max(0, w + 5 - text_bounds.width)` where `w` is the measured width of the
prefix ending at the cursor's focus position (the index for a caret, the
`end` field for a selection); and it is never negative. -/
theorem offset_unfocused_zero_focused_formula (m : String → ℚ)
    (tb : Rectangle) (v : Value) :
    (∀ c, offset m tb v false c = 0) ∧
    (∀ i, offset m tb v true (Cursor.index i) =
      max 0 (m (v.until i).toString + 5 - tb.width)) ∧
    (∀ s e, offset m tb v true (Cursor.mkSelection s e) =
      max 0 (m (v.until e).toString + 5 - tb.width)) ∧
    (∀ foc c, 0 ≤ offset m tb v foc c) := by
  refine ⟨fun c => rfl, fun i => ?_, fun s e => ?_, fun foc c => ?_⟩
  · unfold offset Cursor.state Cursor.index measure_cursor_and_scroll_offset
      measure_value
    simp
    rw [Value.until_min_len, max_comm]
  · unfold offset Cursor.state Cursor.mkSelection
      measure_cursor_and_scroll_offset measure_value
    simp
    split_ifs with h
    · rw [h, Value.until_min_len, max_comm]
    · rw [Value.until_min_len, max_comm]
  · unfold offset
    split_ifs
    · unfold measure_cursor_and_scroll_offset measure_value
      exact le_max_right _ 0
    · exact le_rfl


/-- C3 (amended): a pointer-move or touch-move received while `is_dragging`
is true is always `Captured`; the cursor is updated to
`select_range(cursor.start(value), hit_index)` with the hit-tested index of
the new pointer x-position only when the horizontal target relative to the
text origin is positive — when the target is ≤ 0 the cursor is left
unchanged (the original claim asserted the update for every position). -/
theorem drag_move_extends_selection {α : Type} [DecidableEq α] (macos : Bool)
    (p : Props α) (classify : Point → Option Click → Click) (m : String → ℚ)
    (lb tb : Rectangle) (pos q : Point) (v : Value) (st : State α)
    (clip : Clipboard) (ev : Event)
    (hev : ev = Event.mouseCursorMoved q ∨ ev = Event.touchFingerMoved q)
    (hdrag : st.is_dragging = true) :
    (on_event macos p classify m lb tb pos v st clip ev).status =
      Status.Captured ∧
    (q.x - tb.x > 0 →
      (on_event macos p classify m lb tb pos v st clip ev).state.cursor =
        Cursor.select_range v (st.cursor.start v)
          (find_cursor_position m tb v st.is_focused st.cursor (q.x - tb.x))) ∧
    (¬ q.x - tb.x > 0 →
      (on_event macos p classify m lb tb pos v st clip ev).state.cursor =
        st.cursor) := by
  rcases hev with rfl | rfl <;>
  · unfold on_event
    refine ⟨?_, ?_, ?_⟩
    · simp [hdrag]
    · intro h; simp [hdrag, h]
    · intro h; simp [hdrag, h]

/-- C3 counterexample: in a concrete dragging state with the caret at index
2, a move whose target is ≤ 0 leaves the cursor at `Index 2`, which differs
from the `select_range(anchor, hit_index)` the claim asserts for every
position. -/
theorem drag_move_nonpositive_counterexample :
    (on_event false wProps wClassifySingle wMeasure wLayout wText wPos
        (Value.new "ab") wStDrag wClip
        (Event.mouseCursorMoved ⟨0, 0⟩)).state.cursor = Cursor.index 2 ∧
    Cursor.index 2 ≠
      Cursor.select_range (Value.new "ab")
        (wStDrag.cursor.start (Value.new "ab"))
        (find_cursor_position wMeasure wText (Value.new "ab")
          wStDrag.is_focused wStDrag.cursor ((⟨0, 0⟩ : Point).x - wText.x)) := by
  constructor
  · unfold on_event
    norm_num [wStDrag, wText, State.new]
  · have e1 : ((⟨0, 0⟩ : Point).x - wText.x) = -1 := by norm_num [wText]
    have hfcp : find_cursor_position wMeasure wText (Value.new "ab")
        wStDrag.is_focused wStDrag.cursor (-1) = 0 := by
      show find_cursor_position wMeasure wText (Value.new "ab") false
        (Cursor.index 2) (-1) = 0
      have hoff : offset wMeasure wText (Value.new "ab") false
          (Cursor.index 2) = 0 := rfl
      unfold find_cursor_position
      rw [hoff]
      have hlen : (Value.new "ab").len = 2 := by decide
      rw [hlen]
      norm_num
      rw [find_cursor_position2_step _ _ _ _ _ (by norm_num),
        if_pos (by norm_num [measureRounded, wMeasure])]
      rw [find_cursor_position2_step _ _ _ _ _ (by norm_num),
        if_pos (by norm_num [measureRounded, wMeasure])]
      rw [find_cursor_position2_base _ _ _ _ _ (by norm_num)]
      norm_num
    rw [e1, hfcp]
    decide

/-- C3 witness: the amended drag-move theorem applied at a concrete dragging
state with a positive target. -/
theorem drag_move_extends_selection_witness :
    (on_event false wProps wClassifySingle wMeasure wLayout wText wPos
      (Value.new "ab") wStDrag wClip
      (Event.mouseCursorMoved wPos)).state.cursor =
      Cursor.select_range (Value.new "ab")
        (wStDrag.cursor.start (Value.new "ab"))
        (find_cursor_position wMeasure wText (Value.new "ab")
          wStDrag.is_focused wStDrag.cursor (wPos.x - wText.x)) :=
  (drag_move_extends_selection false wProps wClassifySingle wMeasure wLayout
    wText wPos wPos (Value.new "ab") wStDrag wClip
    (Event.mouseCursorMoved wPos) (Or.inl rfl) rfl).2.1
    (by norm_num [wPos, wText])


/-- C2 (amended): in a focused state with no selection, command+X never
writes the clipboard, but it still runs `Editor::delete` and emits the
value-changed message: the scalar right of the caret is deleted, so the
Value and the Cursor are unchanged only when the caret sits at (or beyond)
the end of the value. -/
theorem cut_no_selection_amended {α : Type} [DecidableEq α] (macos : Bool)
    (p : Props α) (classify : Point → Option Click → Click) (m : String → ℚ)
    (lb tb : Rectangle) (pos : Point) (v : Value) (st : State α)
    (clip : Clipboard)
    (hfoc : st.is_focused = true)
    (hcmd : st.keyboard_modifiers.command = true)
    (hsel : st.cursor.selection v = none) :
    (on_event macos p classify m lb tb pos v st clip
      (Event.keyPressed KeyCode.X)).clipboard = clip ∧
    (on_event macos p classify m lb tb pos v st clip
      (Event.keyPressed KeyCode.X)).value = (Editor.delete v st.cursor).1 ∧
    (on_event macos p classify m lb tb pos v st clip
      (Event.keyPressed KeyCode.X)).state.cursor =
      (Editor.delete v st.cursor).2 ∧
    (on_event macos p classify m lb tb pos v st clip
      (Event.keyPressed KeyCode.X)).messages =
      [Message.onChange (Editor.delete v st.cursor).1.toString] ∧
    (v.len ≤ caretIndex st.cursor v →
      (on_event macos p classify m lb tb pos v st clip
        (Event.keyPressed KeyCode.X)).value = v ∧
      (on_event macos p classify m lb tb pos v st clip
        (Event.keyPressed KeyCode.X)).state.cursor = st.cursor) := by
  have key : on_event macos p classify m lb tb pos v st clip
      (Event.keyPressed KeyCode.X) =
      { state := { st with cursor := (Editor.delete v st.cursor).2 }
        value := (Editor.delete v st.cursor).1
        clipboard := clip
        messages := [Message.onChange (Editor.delete v st.cursor).1.toString]
        status := Status.Captured } := by
    unfold on_event
    simp only [hfoc, if_true]
    unfold on_key_pressed
    simp [hcmd, hsel, hfoc]
  rw [key]
  refine ⟨rfl, rfl, rfl, rfl, fun hend => ?_⟩
  have hd : Editor.delete v st.cursor = (v, st.cursor) := by
    unfold Editor.delete
    rw [hsel]
    simp [Nat.not_lt.mpr hend]
  rw [hd]
  exact ⟨rfl, rfl⟩

/-- C2 witness: the amended cut theorem applied with the caret at the end
of "abc": clipboard, value and cursor are all unchanged. -/
theorem cut_no_selection_amended_witness :
    (on_event false wProps wClassifySingle wMeasure wLayout wText wPos
      (Value.new "abc") wStCaret3Cmd wClip
      (Event.keyPressed KeyCode.X)).clipboard = wClip ∧
    (on_event false wProps wClassifySingle wMeasure wLayout wText wPos
      (Value.new "abc") wStCaret3Cmd wClip
      (Event.keyPressed KeyCode.X)).value = Value.new "abc" ∧
    (on_event false wProps wClassifySingle wMeasure wLayout wText wPos
      (Value.new "abc") wStCaret3Cmd wClip
      (Event.keyPressed KeyCode.X)).state.cursor = wStCaret3Cmd.cursor := by
  have h := cut_no_selection_amended false wProps wClassifySingle wMeasure
    wLayout wText wPos (Value.new "abc") wStCaret3Cmd wClip rfl rfl (by decide)
  exact ⟨h.1, (h.2.2.2.2 (by decide)).1, (h.2.2.2.2 (by decide)).2⟩

/-- C2 counterexample: focused, no selection, caret at index 1 over "abc" —
command+X changes the value (it deletes the scalar right of the caret), so
the event is not a no-op as the claim states. -/
theorem cut_no_selection_counterexample :
    (on_event false wProps wClassifySingle wMeasure wLayout wText wPos
      (Value.new "abc") wStCaret1Cmd wClip
      (Event.keyPressed KeyCode.X)).value ≠ Value.new "abc" := by
  decide

/-- C7: while focused, Backspace with the word-jump modifier and no
selection first extends the selection left by one word and then runs
`Editor::backspace`, emitting the value-changed message; without the
word-jump modifier it runs `Editor::backspace` directly (deleting the
single scalar left of the caret); concretely, "hello" with caret 5 becomes
"hell" with caret 4 and `OnChange("hell")` emitted. -/
theorem backspace_deletes_word_or_scalar {α : Type} [DecidableEq α]
    (macos : Bool) (p : Props α) (classify : Point → Option Click → Click)
    (m : String → ℚ) (lb tb : Rectangle) (pos : Point) (v : Value)
    (st : State α) (clip : Clipboard)
    (hfoc : st.is_focused = true) :
    (is_jump_modifier_pressed macos st.keyboard_modifiers = true →
      st.cursor.selection v = none →
      (on_event macos p classify m lb tb pos v st clip
        (Event.keyPressed KeyCode.Backspace)).value =
        (Editor.backspace v (st.cursor.select_left_by_words v)).1 ∧
      (on_event macos p classify m lb tb pos v st clip
        (Event.keyPressed KeyCode.Backspace)).state.cursor =
        (Editor.backspace v (st.cursor.select_left_by_words v)).2 ∧
      (on_event macos p classify m lb tb pos v st clip
        (Event.keyPressed KeyCode.Backspace)).messages =
        [Message.onChange
          (Editor.backspace v (st.cursor.select_left_by_words v)).1.toString]) ∧
    (is_jump_modifier_pressed macos st.keyboard_modifiers = false →
      (on_event macos p classify m lb tb pos v st clip
        (Event.keyPressed KeyCode.Backspace)).value =
        (Editor.backspace v st.cursor).1 ∧
      (on_event macos p classify m lb tb pos v st clip
        (Event.keyPressed KeyCode.Backspace)).state.cursor =
        (Editor.backspace v st.cursor).2 ∧
      (on_event macos p classify m lb tb pos v st clip
        (Event.keyPressed KeyCode.Backspace)).messages =
        [Message.onChange (Editor.backspace v st.cursor).1.toString]) ∧
    ((on_event false wProps wClassifySingle wMeasure wLayout wText wPos
        (Value.new "hello") wStCaret5 wClip
        (Event.keyPressed KeyCode.Backspace)).value.toString = "hell" ∧
      (on_event false wProps wClassifySingle wMeasure wLayout wText wPos
        (Value.new "hello") wStCaret5 wClip
        (Event.keyPressed KeyCode.Backspace)).state.cursor = Cursor.index 4 ∧
      (on_event false wProps wClassifySingle wMeasure wLayout wText wPos
        (Value.new "hello") wStCaret5 wClip
        (Event.keyPressed KeyCode.Backspace)).messages =
        [Message.onChange "hell"]) := by
  refine ⟨fun hj hsel => ?_, fun hj => ?_, by decide⟩
  · unfold on_event
    simp only [hfoc, if_true]
    unfold on_key_pressed
    simp [hj, hsel]
  · unfold on_event
    simp only [hfoc, if_true]
    unfold on_key_pressed
    simp [hj]

/-- C7 witness: the Backspace theorem's no-word-jump part applied at
"hello" with caret 5. -/
theorem backspace_deletes_word_or_scalar_witness :
    (on_event false wProps wClassifySingle wMeasure wLayout wText wPos
      (Value.new "hello") wStCaret5 wClip
      (Event.keyPressed KeyCode.Backspace)).value =
      (Editor.backspace (Value.new "hello") wStCaret5.cursor).1 ∧
    (on_event false wProps wClassifySingle wMeasure wLayout wText wPos
      (Value.new "hello") wStCaret5 wClip
      (Event.keyPressed KeyCode.Backspace)).state.cursor =
      (Editor.backspace (Value.new "hello") wStCaret5.cursor).2 ∧
    (on_event false wProps wClassifySingle wMeasure wLayout wText wPos
      (Value.new "hello") wStCaret5 wClip
      (Event.keyPressed KeyCode.Backspace)).messages =
      [Message.onChange
        (Editor.backspace (Value.new "hello") wStCaret5.cursor).1.toString] :=
  (backspace_deletes_word_or_scalar false wProps wClassifySingle wMeasure
    wLayout wText wPos (Value.new "hello") wStCaret5 wClip rfl).2.1 rfl

/-- C8: while focused with the command modifier, pressing C writes exactly
the selected substring `value.select(start, end)` to the clipboard when a
selection exists and leaves the clipboard untouched when none exists; in
both cases the value, the whole control state and the published messages
are unchanged and the status is `Captured`. -/
theorem copy_writes_selection_only {α : Type} [DecidableEq α] (macos : Bool)
    (p : Props α) (classify : Point → Option Click → Click) (m : String → ℚ)
    (lb tb : Rectangle) (pos : Point) (v : Value) (st : State α)
    (clip : Clipboard)
    (hfoc : st.is_focused = true)
    (hcmd : st.keyboard_modifiers.command = true) :
    (∀ s e, st.cursor.selection v = some (s, e) →
      (on_event macos p classify m lb tb pos v st clip
        (Event.keyPressed KeyCode.C)).clipboard =
        clip.write (v.select s e).toString) ∧
    (st.cursor.selection v = none →
      (on_event macos p classify m lb tb pos v st clip
        (Event.keyPressed KeyCode.C)).clipboard = clip) ∧
    (on_event macos p classify m lb tb pos v st clip
      (Event.keyPressed KeyCode.C)).value = v ∧
    (on_event macos p classify m lb tb pos v st clip
      (Event.keyPressed KeyCode.C)).state = st ∧
    (on_event macos p classify m lb tb pos v st clip
      (Event.keyPressed KeyCode.C)).messages = [] ∧
    (on_event macos p classify m lb tb pos v st clip
      (Event.keyPressed KeyCode.C)).status = Status.Captured := by
  unfold on_event
  simp only [hfoc, if_true]
  unfold on_key_pressed
  simp only [hcmd, if_true]
  refine ⟨fun s e hse => by simp [hse], fun hse => by simp [hse],
    ?_, ?_, ?_, ?_⟩ <;>
    rcases hse2 : st.cursor.selection v with _ | ⟨s1, e1⟩ <;> simp [hse2]

/-- C8 witness: command+C with selection (1, 3) over "abcdef" writes "bc"
and leaves the buffer and state unchanged. -/
theorem copy_writes_selection_only_witness :
    (on_event false wProps wClassifySingle wMeasure wLayout wText wPos
      (Value.new "abcdef") wStSel13Cmd wClip
      (Event.keyPressed KeyCode.C)).clipboard =
      wClip.write ((Value.new "abcdef").select 1 3).toString ∧
    wClip.write ((Value.new "abcdef").select 1 3).toString =
      Clipboard.mk (some "bc") ∧
    (on_event false wProps wClassifySingle wMeasure wLayout wText wPos
      (Value.new "abcdef") wStSel13Cmd wClip
      (Event.keyPressed KeyCode.C)).value = Value.new "abcdef" ∧
    (on_event false wProps wClassifySingle wMeasure wLayout wText wPos
      (Value.new "abcdef") wStSel13Cmd wClip
      (Event.keyPressed KeyCode.C)).state = wStSel13Cmd := by
  have h := copy_writes_selection_only false wProps wClassifySingle wMeasure
    wLayout wText wPos (Value.new "abcdef") wStSel13Cmd wClip rfl rfl
  exact ⟨h.1 1 3 (by decide), by decide, h.2.2.1, h.2.2.2.1⟩
